import Mathlib

/-!
Verification development for the Momentum Shift Score (MSS) statistics engine
(`mss_helpers_ai.py`).  The pandas DataFrame of per-pitch event records is
embedded as a list of records together with column-presence flags (a pandas
column can be absent as a whole; an individual cell can be NaN, embedded as
`Option`).  Python floats are embedded as rationals, Python `dict`s whose keys
are observed dynamically as association lists, and raising code as `Except`.
-/

namespace MSS

/-- One per-pitch event record (one DataFrame row).  A `none` field is a NaN
cell.  Fields are only meaningful when the corresponding column is present in
the frame (`Cols`). -/
structure Record where
  events : Option String := none
  description : Option String := none
  bb_type : Option String := none
  pitch_type : Option String := none
  launch_speed : Option ℚ := none
  launch_angle : Option ℚ := none
  hit_distance_sc : Option ℚ := none
  release_speed : Option ℚ := none
  release_spin_rate : Option ℚ := none
  woba_value : Option ℚ := none
  woba_denom : Option ℚ := none
  balls : Option ℤ := none
  strikes : Option ℤ := none
  on_1b : Option ℤ := none
  on_2b : Option ℤ := none
  on_3b : Option ℤ := none
  inning : Option ℤ := none
  at_bat_number : Option ℤ := none
  runs_scored_on_play : Option ℤ := none
deriving DecidableEq, Inhabited

/-- Column-presence flags of the DataFrame: `true` iff the column exists
(`col in stats.columns` in the source). -/
structure Cols where
  events : Bool := false
  description : Bool := false
  bb_type : Bool := false
  pitch_type : Bool := false
  launch_speed : Bool := false
  launch_angle : Bool := false
  hit_distance_sc : Bool := false
  release_speed : Bool := false
  release_spin_rate : Bool := false
  woba_value : Bool := false
  woba_denom : Bool := false
  balls : Bool := false
  strikes : Bool := false
  on_1b : Bool := false
  on_2b : Bool := false
  on_3b : Bool := false
  inning : Bool := false
  at_bat_number : Bool := false
  runs_scored_on_play : Bool := false
deriving DecidableEq, Inhabited

/-- The raw `stats_df` DataFrame handed to `PlayerStats.__init__`. -/
structure StatsDF where
  cols : Cols
  rows : List Record
deriving DecidableEq, Inhabited

/-- `str.lower()` (character-wise lowercasing, the structural equivalent of
`String.toLower`). -/
def strToLower (s : String) : String := ⟨s.data.map Char.toLower⟩

/-- `dict` lookup: first entry with the given key (Python dicts have unique
keys, so any association list with distinct keys models a dict exactly). -/
def lookupStr {α : Type} : List (String × α) → String → Option α
  | [], _ => none
  | p :: rest, k => if k = p.1 then some p.2 else lookupStr rest k

/-- `dict.get(key, default)`. -/
def lookupD {α : Type} (l : List (String × α)) (k : String) (d : α) : α :=
  (lookupStr l k).getD d

/-- Sum of a rational list. -/
def ratListSum (l : List ℚ) : ℚ := l.sum

/-- `series.dropna().mean()`; the callers guard against the empty list. -/
def meanQ (l : List ℚ) : ℚ := l.sum / l.length

/-- `series.max()` (pandas skips NaN); callers guard against the empty list. -/
def maxQ : List ℚ → ℚ
  | [] => 0
  | h :: t => t.foldl max h

/-- `series.sum()`: pandas skips NaN cells. -/
def sumOptQ (l : List (Option ℚ)) : ℚ := (l.filterMap id).sum

/-- Outcome events counted as hits. -/
def hitEvents : List String := ["single", "double", "triple", "home_run"]

/-- Outcome events excluded from at-bats. -/
def nonAbEvents : List String := ["walk", "hit_by_pitch", "sac_fly", "sac_bunt"]

/-- `row['events'].isin(vs)`: NaN is never `isin`. -/
def eventIsIn (r : Record) (vs : List String) : Bool :=
  match r.events with
  | some e => vs.contains e
  | none => false

/-- `events_counts.get(v, 0)` where
`events_counts = stats['events'].value_counts().to_dict()` (counts of one
non-NaN value of the events column). -/
def countEventsVal (rows : List Record) (v : String) : ℕ :=
  (rows.filter (fun r => r.events == some v)).length

/-- `sum(pd.notna(stats['events']))`: plate appearances. -/
def notnaEventsCount (rows : List Record) : ℕ :=
  (rows.filter (fun r => r.events.isSome)).length

/-- `sum(pd.notna(events) & ~events.isin(['walk','hit_by_pitch','sac_fly','sac_bunt']))`:
at-bats. -/
def abEventsCount (rows : List Record) : ℕ :=
  (rows.filter (fun r =>
    match r.events with
    | some e => !(nonAbEvents.contains e)
    | none => false)).length

/-- Number of rows of a group whose events cell is a hit
(`sum(pd.notna(events) & events.isin(['single','double','triple','home_run']))`). -/
def hitEventsCount (rows : List Record) : ℕ :=
  (rows.filter (fun r => eventIsIn r hitEvents)).length

/-- `_calculate_batter_summary_stats` output (`self.summary_stats` for a
batter).  `events_counts` (a nested dict that no consumer reads through
`.get(key, 0)`) is not carried. -/
structure BatterSummary where
  total_pas : ℚ
  total_abs : ℚ
  singles : ℚ
  doubles : ℚ
  triples : ℚ
  home_runs : ℚ
  hits : ℚ
  walks : ℚ
  strikeouts : ℚ
  hit_by_pitch : ℚ
  batting_avg : ℚ
  on_base_pct : ℚ
  slug_pct : ℚ
  ops : ℚ
  woba : ℚ
  avg_launch_speed : ℚ
  avg_launch_angle : ℚ
  max_exit_velo : ℚ
  max_distance : ℚ
deriving DecidableEq, Inhabited

/-- `PlayerStats._calculate_batter_summary_stats`. -/
def batterSummaryStats (df : StatsDF) : BatterSummary :=
  let rows := df.rows
  let ec : String → ℕ := fun v => if df.cols.events then countEventsVal rows v else 0
  let total_pas : ℕ := if df.cols.events then notnaEventsCount rows else rows.length
  let total_abs : ℕ := if df.cols.events then abEventsCount rows else total_pas
  let singles := ec "single"
  let doubles := ec "double"
  let triples := ec "triple"
  let home_runs := ec "home_run"
  let hits := singles + doubles + triples + home_runs
  let walks := ec "walk"
  let strikeouts := ec "strikeout"
  let hit_by_pitch := ec "hit_by_pitch"
  let batting_avg : ℚ := if 0 < total_abs then (hits : ℚ) / (total_abs : ℚ) else 0
  let on_base_pct : ℚ :=
    if 0 < total_pas then ((hits : ℚ) + (walks : ℚ) + (hit_by_pitch : ℚ)) / (total_pas : ℚ) else 0
  let slug_pct : ℚ :=
    if 0 < total_abs then
      ((singles : ℚ) + 2 * (doubles : ℚ) + 3 * (triples : ℚ) + 4 * (home_runs : ℚ)) / (total_abs : ℚ)
    else 0
  let ops := on_base_pct + slug_pct
  let woba_value : ℚ := if df.cols.woba_value then sumOptQ (rows.map (·.woba_value)) else 0
  let woba_denom : ℚ := if df.cols.woba_denom then sumOptQ (rows.map (·.woba_denom)) else 0
  let woba : ℚ := if 0 < woba_denom then woba_value / woba_denom else 0
  let ls := rows.filterMap (·.launch_speed)
  let la := rows.filterMap (·.launch_angle)
  let hd := rows.filterMap (·.hit_distance_sc)
  let avg_launch_speed : ℚ := if df.cols.launch_speed && !ls.isEmpty then meanQ ls else 0
  let avg_launch_angle : ℚ := if df.cols.launch_angle && !la.isEmpty then meanQ la else 0
  let max_exit_velo : ℚ := if df.cols.launch_speed && !ls.isEmpty then maxQ ls else 0
  let max_distance : ℚ := if df.cols.hit_distance_sc && !hd.isEmpty then maxQ hd else 0
  { total_pas := (total_pas : ℚ), total_abs := (total_abs : ℚ), singles := (singles : ℚ),
    doubles := (doubles : ℚ), triples := (triples : ℚ), home_runs := (home_runs : ℚ),
    hits := (hits : ℚ), walks := (walks : ℚ), strikeouts := (strikeouts : ℚ),
    hit_by_pitch := (hit_by_pitch : ℚ), batting_avg := batting_avg,
    on_base_pct := on_base_pct, slug_pct := slug_pct, ops := ops, woba := woba,
    avg_launch_speed := avg_launch_speed, avg_launch_angle := avg_launch_angle,
    max_exit_velo := max_exit_velo, max_distance := max_distance }

/-- `_calculate_pitcher_summary_stats` output (`self.summary_stats` for a
pitcher).  The dict key `k_bb_ratio` is embedded as field `k_bb`;
`events_counts` is not carried (see `BatterSummary`). -/
structure PitcherSummary where
  total_batters_faced : ℚ
  total_pitches : ℚ
  innings_pitched : ℚ
  hits : ℚ
  walks : ℚ
  strikeouts : ℚ
  home_runs : ℚ
  runs_allowed : ℚ
  era : ℚ
  whip : ℚ
  k_per_9 : ℚ
  bb_per_9 : ℚ
  hr_per_9 : ℚ
  k_bb : ℚ
  avg_velocity : ℚ
  avg_spin_rate : ℚ
deriving DecidableEq, Inhabited

/-- `PlayerStats._calculate_pitcher_summary_stats`. -/
def pitcherSummaryStats (df : StatsDF) : PitcherSummary :=
  let rows := df.rows
  let ec : String → ℕ := fun v => if df.cols.events then countEventsVal rows v else 0
  let total_batters_faced : ℕ :=
    if df.cols.at_bat_number then ((rows.filterMap (·.at_bat_number)).dedup).length
    else rows.length
  let total_pitches : ℕ := rows.length
  let hits : ℕ := if df.cols.events then hitEventsCount rows else 0
  let walks := ec "walk"
  let strikeouts := ec "strikeout"
  let home_runs := ec "home_run"
  let field_outs := ec "field_out"
  let force_outs := ec "force_out"
  let double_plays := ec "grounded_into_double_play" * 2
  let outs := field_outs + strikeouts + force_outs + double_plays
  let innings_pitched : ℚ :=
    if 0 < outs then (outs : ℚ) / 3 else (total_batters_faced : ℚ) / 3
  let runs_allowed : ℚ :=
    if df.cols.runs_scored_on_play then
      ((rows.filter (fun r =>
        match r.runs_scored_on_play with
        | some n => decide (0 < n)
        | none => false)).length : ℚ)
    else (hits : ℚ) * (1 / 2)
  let era0 : ℚ := if 0 < innings_pitched then 9 * runs_allowed / innings_pitched else 0
  let era : ℚ := max 0 era0
  let whip : ℚ := if 0 < innings_pitched then ((hits : ℚ) + (walks : ℚ)) / innings_pitched else 0
  let k_per_9 : ℚ := if 0 < innings_pitched then 9 * (strikeouts : ℚ) / innings_pitched else 0
  let bb_per_9 : ℚ := if 0 < innings_pitched then 9 * (walks : ℚ) / innings_pitched else 0
  let hr_per_9 : ℚ := if 0 < innings_pitched then 9 * (home_runs : ℚ) / innings_pitched else 0
  let k_bb : ℚ := if 0 < walks then (strikeouts : ℚ) / (walks : ℚ) else (strikeouts : ℚ)
  let rs := rows.filterMap (·.release_speed)
  let rr := rows.filterMap (·.release_spin_rate)
  let avg_velocity : ℚ := if df.cols.release_speed && !rs.isEmpty then meanQ rs else 0
  let avg_spin_rate : ℚ := if df.cols.release_spin_rate && !rr.isEmpty then meanQ rr else 0
  { total_batters_faced := (total_batters_faced : ℚ), total_pitches := (total_pitches : ℚ),
    innings_pitched := innings_pitched, hits := (hits : ℚ), walks := (walks : ℚ),
    strikeouts := (strikeouts : ℚ), home_runs := (home_runs : ℚ), runs_allowed := runs_allowed,
    era := era, whip := whip, k_per_9 := k_per_9, bb_per_9 := bb_per_9, hr_per_9 := hr_per_9,
    k_bb := k_bb, avg_velocity := avg_velocity, avg_spin_rate := avg_spin_rate }

/-- `self.batted_ball_profile`: `empty` is the `{}` set by `__init__` when no
data is available, `unavail` is `{'available': False}` and `avail es` is the
populated dict with `'available': True` together with its rational entries
(the nested `batted_ball_types` dict, which no consumer reads, is not
carried). -/
inductive BBProfile where
  | empty
  | unavail
  | avail (entries : List (String × ℚ))
deriving DecidableEq, Inhabited

/-- `self.batted_ball_profile.get('available', False)`. -/
def BBProfile.isAvailable : BBProfile → Bool
  | .avail _ => true
  | _ => false

/-- `self.batted_ball_profile.get(k, 0)` for a rational-valued key. -/
def BBProfile.get (p : BBProfile) (k : String) : ℚ :=
  match p with
  | .avail es => lookupD es k 0
  | _ => 0

/-- `batted_balls = stats[pd.notna(stats['bb_type'])]` (empty frame when the
column is absent). -/
def battedBallRows (df : StatsDF) : List Record :=
  if df.cols.bb_type then df.rows.filter (fun r => r.bb_type.isSome) else []

/-- `bb_types.get(t, 0)` from `batted_balls['bb_type'].value_counts()`. -/
def bbTypeCount (bb : List Record) (t : String) : ℕ :=
  (bb.filter (fun r => r.bb_type == some t)).length

/-- `len(batted_balls[batted_balls['launch_speed'] >= 95])` guarded on the
column (a NaN cell never satisfies the comparison). -/
def hardHitCount (df : StatsDF) (bb : List Record) : ℕ :=
  if df.cols.launch_speed then
    (bb.filter (fun r =>
      match r.launch_speed with
      | some v => decide (95 ≤ v)
      | none => false)).length
  else 0

/-- Barrels: exit velocity at least 98 and launch angle in `[8, 32]`, guarded
on both columns. -/
def barrelCount (df : StatsDF) (bb : List Record) : ℕ :=
  if df.cols.launch_speed && df.cols.launch_angle then
    (bb.filter (fun r =>
      match r.launch_speed, r.launch_angle with
      | some v, some a => decide (98 ≤ v ∧ 8 ≤ a ∧ a ≤ 32)
      | _, _ => false)).length
  else 0

/-- `PlayerStats._calculate_batter_batted_ball_profile`. -/
def batterBattedBallProfile (df : StatsDF) : BBProfile :=
  let bb := battedBallRows df
  if bb.isEmpty then .unavail
  else
    let n : ℕ := bb.length
    let pct : ℕ → ℚ := fun c => if 0 < n then (c : ℚ) / (n : ℚ) else 0
    .avail [("ground_ball_pct", pct (bbTypeCount bb "ground_ball")),
            ("fly_ball_pct", pct (bbTypeCount bb "fly_ball")),
            ("line_drive_pct", pct (bbTypeCount bb "line_drive")),
            ("popup_pct", pct (bbTypeCount bb "popup")),
            ("hard_hit_rate", pct (hardHitCount df bb)),
            ("barrel_rate", pct (barrelCount df bb)),
            ("total_batted_balls", (n : ℚ))]

/-- `PlayerStats._calculate_pitcher_batted_ball_profile` (same computation
with the `_allowed` key names). -/
def pitcherBattedBallProfile (df : StatsDF) : BBProfile :=
  let bb := battedBallRows df
  if bb.isEmpty then .unavail
  else
    let n : ℕ := bb.length
    let pct : ℕ → ℚ := fun c => if 0 < n then (c : ℚ) / (n : ℚ) else 0
    .avail [("ground_ball_pct", pct (bbTypeCount bb "ground_ball")),
            ("fly_ball_pct", pct (bbTypeCount bb "fly_ball")),
            ("line_drive_pct", pct (bbTypeCount bb "line_drive")),
            ("popup_pct", pct (bbTypeCount bb "popup")),
            ("hard_hit_rate_allowed", pct (hardHitCount df bb)),
            ("barrel_rate_allowed", pct (barrelCount df bb)),
            ("total_batted_balls", (n : ℚ))]

/-- `series.value_counts().to_dict()` over the non-NaN values of a string
column (insertion order is not observed by any consumer). -/
def valueCountsStr (l : List String) : List (String × ℕ) :=
  l.dedup.map (fun v => (v, (l.filter (fun x => x == v)).length))

/-- `row['description'].isin(vs)` (NaN is never `isin`). -/
def descIsIn (r : Record) (vs : List String) : Bool :=
  match r.description with
  | some d => vs.contains d
  | none => false

/-- Per-pitch-type stats dict.  Pitcher-only keys (`in_play_rate`,
`put_away_rate`) are `none` for batter groups. -/
structure PTEntry where
  total_pitches : ℚ
  strike_rate : ℚ
  swing_rate : ℚ
  whiff_rate : ℚ
  in_play_rate : Option ℚ
  put_away_rate : Option ℚ
  avg_velocity : ℚ
  avg_spin_rate : ℚ
  outcomes : List (String × ℕ)
  events_dist : List (String × ℕ)
  contact_results : List (String × ℚ)
deriving DecidableEq, Inhabited

/-- `self.pitch_type_stats`: `empty` is the `{}` set by `__init__`, `unavail`
is `{'available': False}` (pitch-type column absent) and `grouped l` is
`{'available': len(l) > 0, 'pitch_types': l}`. -/
inductive PitchTypeStats where
  | empty
  | unavail
  | grouped (pitch_types : List (String × PTEntry))
deriving DecidableEq, Inhabited

/-- `self.pitch_type_stats.get('available', False)`. -/
def PitchTypeStats.isAvailable : PitchTypeStats → Bool
  | .grouped l => !l.isEmpty
  | _ => false

/-- One group of the `groupby('pitch_type')` loop body.  `pitcher` selects the
pitcher variant (which additionally computes in-play and put-away rates).
Callers guarantee that the description column is present whenever both launch
columns are (otherwise the source raises, see `batterPitchTypeStatsE`). -/
def pitchGroupEntry (df : StatsDF) (group : List Record) (pitcher : Bool) : PTEntry :=
  let outcomes := if df.cols.description then valueCountsStr (group.filterMap (·.description)) else []
  let total_pitches := group.length
  let strikes : ℕ :=
    if df.cols.description then
      (group.filter (fun r => descIsIn r ["called_strike", "swinging_strike", "foul", "foul_tip"])).length
    else 0
  let swing_count : ℕ :=
    if df.cols.description then
      (group.filter (fun r => descIsIn r ["swinging_strike", "foul", "foul_tip", "hit_into_play"])).length
    else 0
  let whiff_count : ℕ :=
    if df.cols.description then (group.filter (fun r => r.description == some "swinging_strike")).length
    else 0
  let in_play : ℕ :=
    if df.cols.description then (group.filter (fun r => r.description == some "hit_into_play")).length
    else 0
  let strike_rate : ℚ := if 0 < total_pitches then (strikes : ℚ) / (total_pitches : ℚ) else 0
  let swing_rate : ℚ := if 0 < total_pitches then (swing_count : ℚ) / (total_pitches : ℚ) else 0
  let whiff_rate : ℚ := if 0 < swing_count then (whiff_count : ℚ) / (swing_count : ℚ) else 0
  let in_play_rate : Option ℚ :=
    if pitcher then some (if 0 < swing_count then (in_play : ℚ) / (swing_count : ℚ) else 0) else none
  let put_away_rate : Option ℚ :=
    if pitcher then
      some (if df.cols.description then
        let opps := (group.filter (fun r => descIsIn r ["swinging_strike", "hit_into_play"])).length
        if 0 < opps then
          ((group.filter (fun r => r.description == some "swinging_strike")).length : ℚ) / (opps : ℚ)
        else 0
      else 0)
    else none
  let rs := group.filterMap (·.release_speed)
  let rr := group.filterMap (·.release_spin_rate)
  let avg_velocity : ℚ := if df.cols.release_speed && !rs.isEmpty then meanQ rs else 0
  let avg_spin_rate : ℚ := if df.cols.release_spin_rate && !rr.isEmpty then meanQ rr else 0
  let events_dist := if df.cols.events then valueCountsStr (group.filterMap (·.events)) else []
  let contact_results : List (String × ℚ) :=
    if df.cols.launch_speed && df.cols.launch_angle then
      let cb := group.filter (fun r => r.description == some "hit_into_play")
      if cb.isEmpty then []
      else
        let cls := cb.filterMap (·.launch_speed)
        let cla := cb.filterMap (·.launch_angle)
        [("avg_exit_velo", if !cls.isEmpty then meanQ cls else 0),
         ("avg_launch_angle", if !cla.isEmpty then meanQ cla else 0)]
    else []
  { total_pitches := (total_pitches : ℚ), strike_rate := strike_rate, swing_rate := swing_rate,
    whiff_rate := whiff_rate, in_play_rate := in_play_rate, put_away_rate := put_away_rate,
    avg_velocity := avg_velocity, avg_spin_rate := avg_spin_rate, outcomes := outcomes,
    events_dist := events_dist, contact_results := contact_results }

/-- The pitch-type labels the `groupby` loop visits: non-NaN (dropped by
`groupby`) and non-empty (skipped by the loop). -/
def pitchLabels (df : StatsDF) : List String :=
  ((df.rows.filterMap (·.pitch_type)).dedup).filter (fun l => l != "")

/-- Condition under which the pitch-type loop raises `KeyError`: the
contact-quality block is guarded on the launch columns only, yet indexes
`group['description']`, so with both launch columns present, the description
column absent and at least one group visited, the source raises. -/
def pitchTypeRaises (df : StatsDF) : Bool :=
  df.cols.launch_speed && df.cols.launch_angle && !df.cols.description
    && !(pitchLabels df).isEmpty

/-- `PlayerStats._calculate_batter_pitch_type_stats` (`Except` models the
`KeyError` escape described at `pitchTypeRaises`). -/
def batterPitchTypeStatsE (df : StatsDF) : Except String PitchTypeStats :=
  if !df.cols.pitch_type then .ok .unavail
  else if pitchTypeRaises df then .error "KeyError: description"
  else .ok (.grouped ((pitchLabels df).map (fun l =>
    (l, pitchGroupEntry df (df.rows.filter (fun r => r.pitch_type == some l)) false))))

/-- `PlayerStats._calculate_pitcher_pitch_type_stats`. -/
def pitcherPitchTypeStatsE (df : StatsDF) : Except String PitchTypeStats :=
  if !df.cols.pitch_type then .ok .unavail
  else if pitchTypeRaises df then .error "KeyError: description"
  else .ok (.grouped ((pitchLabels df).map (fun l =>
    (l, pitchGroupEntry df (df.rows.filter (fun r => r.pitch_type == some l)) true))))

/-- One situational bucket: the inner `{rate key: ..., 'total_at_bats': ...}`
dict, or `none` when the group is empty or the events column is absent (the
bucket is then omitted). -/
def situCalc (df : StatsDF) (group : List Record) (avgKey : String) :
    Option (List (String × ℚ)) :=
  if !group.isEmpty && df.cols.events then
    let hits := hitEventsCount group
    let at_bats := abEventsCount group
    some [(avgKey, if 0 < at_bats then (hits : ℚ) / (at_bats : ℚ) else 0),
          ("total_at_bats", (at_bats : ℚ))]
  else none

/-- Runs `situCalc` over a labelled list of groups, keeping the buckets that
are produced. -/
def situSection (df : StatsDF) (avgKey : String) (groups : List (String × List Record)) :
    List (String × List (String × ℚ)) :=
  groups.foldr (fun p acc =>
    match situCalc df p.2 avgKey with
    | some e => (p.1, e) :: acc
    | none => acc) []

/-- `stats['balls'] > stats['strikes']` (NaN comparisons are false). -/
def ballsGtStrikes (r : Record) : Bool :=
  match r.balls, r.strikes with
  | some b, some s => decide (s < b)
  | _, _ => false

/-- `stats['balls'] < stats['strikes']`. -/
def ballsLtStrikes (r : Record) : Bool :=
  match r.balls, r.strikes with
  | some b, some s => decide (b < s)
  | _, _ => false

/-- `(stats['balls'] == stats['strikes']) & (stats['balls'] > 0)`. -/
def ballsEqStrikesPos (r : Record) : Bool :=
  match r.balls, r.strikes with
  | some b, some s => decide (b = s ∧ 0 < b)
  | _, _ => false

/-- Bases empty: all three base columns NaN. -/
def basesEmptyRow (r : Record) : Bool := r.on_1b.isNone && r.on_2b.isNone && r.on_3b.isNone

/-- RISP: a runner on 2nd or 3rd. -/
def rispRow (r : Record) : Bool := r.on_2b.isSome || r.on_3b.isSome

/-- `stats['inning'] <= 3`. -/
def inningEarly (r : Record) : Bool :=
  match r.inning with
  | some i => decide (i ≤ 3)
  | none => false

/-- `(stats['inning'] > 3) & (stats['inning'] <= 6)`. -/
def inningMiddle (r : Record) : Bool :=
  match r.inning with
  | some i => decide (3 < i ∧ i ≤ 6)
  | none => false

/-- `stats['inning'] > 6`. -/
def inningLate (r : Record) : Bool :=
  match r.inning with
  | some i => decide (6 < i)
  | none => false

/-- `PlayerStats._calculate_batter_situational_stats`. -/
def batterSituationalStats (df : StatsDF) : List (String × List (String × ℚ)) :=
  (if df.cols.balls && df.cols.strikes then
    situSection df "batting_avg"
      [("ahead_count", df.rows.filter ballsGtStrikes),
       ("behind_count", df.rows.filter ballsLtStrikes),
       ("even_count", df.rows.filter ballsEqStrikesPos)]
  else [])
  ++ (if df.cols.on_1b && df.cols.on_2b && df.cols.on_3b then
    situSection df "batting_avg"
      [("bases_empty", df.rows.filter basesEmptyRow),
       ("risp", df.rows.filter rispRow)]
  else [])
  ++ (if df.cols.inning then
    situSection df "batting_avg"
      [("early_innings", df.rows.filter inningEarly),
       ("middle_innings", df.rows.filter inningMiddle),
       ("late_innings", df.rows.filter inningLate)]
  else [])

/-- `PlayerStats._calculate_pitcher_situational_stats` (count sense reversed,
rate key `batting_avg_against`). -/
def pitcherSituationalStats (df : StatsDF) : List (String × List (String × ℚ)) :=
  (if df.cols.balls && df.cols.strikes then
    situSection df "batting_avg_against"
      [("ahead_count", df.rows.filter ballsLtStrikes),
       ("behind_count", df.rows.filter ballsGtStrikes),
       ("even_count", df.rows.filter ballsEqStrikesPos)]
  else [])
  ++ (if df.cols.on_1b && df.cols.on_2b && df.cols.on_3b then
    situSection df "batting_avg_against"
      [("bases_empty", df.rows.filter basesEmptyRow),
       ("risp", df.rows.filter rispRow)]
  else [])
  ++ (if df.cols.inning then
    situSection df "batting_avg_against"
      [("early_innings", df.rows.filter inningEarly),
       ("middle_innings", df.rows.filter inningMiddle),
       ("late_innings", df.rows.filter inningLate)]
  else [])

/-- `self.summary_stats`: `{}` from `__init__`, or the role-specific dict. -/
inductive SummaryStats where
  | empty
  | batter (b : BatterSummary)
  | pitcher (p : PitcherSummary)
deriving DecidableEq, Inhabited

/-- `self.summary_stats.get(k, d)` for a batter dict. -/
def BatterSummary.getD (b : BatterSummary) (k : String) (d : ℚ) : ℚ :=
  if k = "total_pas" then b.total_pas
  else if k = "total_abs" then b.total_abs
  else if k = "singles" then b.singles
  else if k = "doubles" then b.doubles
  else if k = "triples" then b.triples
  else if k = "home_runs" then b.home_runs
  else if k = "hits" then b.hits
  else if k = "walks" then b.walks
  else if k = "strikeouts" then b.strikeouts
  else if k = "hit_by_pitch" then b.hit_by_pitch
  else if k = "batting_avg" then b.batting_avg
  else if k = "on_base_pct" then b.on_base_pct
  else if k = "slug_pct" then b.slug_pct
  else if k = "ops" then b.ops
  else if k = "woba" then b.woba
  else if k = "avg_launch_speed" then b.avg_launch_speed
  else if k = "avg_launch_angle" then b.avg_launch_angle
  else if k = "max_exit_velo" then b.max_exit_velo
  else if k = "max_distance" then b.max_distance
  else d

/-- `self.summary_stats.get(k, d)` for a pitcher dict. -/
def PitcherSummary.getD (p : PitcherSummary) (k : String) (d : ℚ) : ℚ :=
  if k = "total_batters_faced" then p.total_batters_faced
  else if k = "total_pitches" then p.total_pitches
  else if k = "innings_pitched" then p.innings_pitched
  else if k = "hits" then p.hits
  else if k = "walks" then p.walks
  else if k = "strikeouts" then p.strikeouts
  else if k = "home_runs" then p.home_runs
  else if k = "runs_allowed" then p.runs_allowed
  else if k = "era" then p.era
  else if k = "whip" then p.whip
  else if k = "k_per_9" then p.k_per_9
  else if k = "bb_per_9" then p.bb_per_9
  else if k = "hr_per_9" then p.hr_per_9
  else if k = "k_bb_ratio" then p.k_bb
  else if k = "avg_velocity" then p.avg_velocity
  else if k = "avg_spin_rate" then p.avg_spin_rate
  else d

/-- `self.summary_stats.get(k, d)`. -/
def SummaryStats.getD : SummaryStats → String → ℚ → ℚ
  | .empty, _, d => d
  | .batter b, k, d => b.getD k d
  | .pitcher p, k, d => p.getD k d

/-- `self.summary_stats.get(k, 0)`. -/
def SummaryStats.get (s : SummaryStats) (k : String) : ℚ := s.getD k 0

/-- The `PlayerStats` object after construction. -/
structure PlayerStats where
  player_name : String
  player_id : Option ℤ
  start_date : Option String
  end_date : Option String
  raw_data : StatsDF
  player_type : String
  data_available : Bool
  summary_stats : SummaryStats
  batted_ball_profile : BBProfile
  pitch_type_stats : PitchTypeStats
  situational_stats : List (String × List (String × ℚ))
deriving DecidableEq, Inhabited

/-- `PlayerStats._calculate_all_stats` plus the per-role calculators it
dispatches to: produces the four derived views, or the `ValueError` raised for
an unknown player type (and the pitch-type `KeyError`, see
`pitchTypeRaises`). -/
def calculateAllStats (player_type : String) (df : StatsDF) :
    Except String (SummaryStats × BBProfile × PitchTypeStats × List (String × List (String × ℚ))) :=
  if player_type = "batter" then
    match batterPitchTypeStatsE df with
    | .error e => .error e
    | .ok pts =>
      .ok (.batter (batterSummaryStats df), batterBattedBallProfile df, pts,
           batterSituationalStats df)
  else if player_type = "pitcher" then
    match pitcherPitchTypeStatsE df with
    | .error e => .error e
    | .ok pts =>
      .ok (.pitcher (pitcherSummaryStats df), pitcherBattedBallProfile df, pts,
           pitcherSituationalStats df)
  else .error ("Unknown player type: " ++ player_type)

/-- `PlayerStats.__init__`: lowercases the role, sets
`data_available = not stats_df.empty`, initialises the four containers to
empty and runs `_calculate_all_stats` only when data is available. -/
def PlayerStats.init (player_name : String) (player_id : Option ℤ) (stats_df : StatsDF)
    (start_date end_date : Option String) (player_type : String) :
    Except String PlayerStats :=
  if stats_df.rows.isEmpty then
    .ok { player_name := player_name, player_id := player_id, start_date := start_date,
          end_date := end_date, raw_data := stats_df, player_type := strToLower player_type,
          data_available := false, summary_stats := .empty, batted_ball_profile := .empty,
          pitch_type_stats := .empty, situational_stats := [] }
  else
    match calculateAllStats (strToLower player_type) stats_df with
    | .error e => .error e
    | .ok (su, bb, pts, si) =>
      .ok { player_name := player_name, player_id := player_id, start_date := start_date,
            end_date := end_date, raw_data := stats_df, player_type := strToLower player_type,
            data_available := true, summary_stats := su, batted_ball_profile := bb,
            pitch_type_stats := pts, situational_stats := si }

/-- The numeric metric entries of `PlayerStats.get_summary()`, in source
order.  The identity/metadata entries (`player_name`, `player_id`,
`data_available`, `date_range`), which `compare_to` explicitly skips, are not
carried. -/
def getSummaryMetrics (s : PlayerStats) : List (String × ℚ) :=
  if s.data_available = false then []
  else if s.player_type = "batter" then
    [("batting_avg", s.summary_stats.get "batting_avg"),
     ("on_base_pct", s.summary_stats.get "on_base_pct"),
     ("slug_pct", s.summary_stats.get "slug_pct"),
     ("ops", s.summary_stats.get "ops"),
     ("home_runs", s.summary_stats.get "home_runs"),
     ("total_abs", s.summary_stats.get "total_abs"),
     ("strikeout_rate", s.summary_stats.get "strikeouts" / max (s.summary_stats.getD "total_pas" 1) 1),
     ("walk_rate", s.summary_stats.get "walks" / max (s.summary_stats.getD "total_pas" 1) 1),
     ("avg_launch_speed", s.summary_stats.get "avg_launch_speed"),
     ("avg_launch_angle", s.summary_stats.get "avg_launch_angle"),
     ("barrel_rate", if s.batted_ball_profile.isAvailable then s.batted_ball_profile.get "barrel_rate" else 0)]
  else
    [("innings_pitched", s.summary_stats.get "innings_pitched"),
     ("era", s.summary_stats.get "era"),
     ("whip", s.summary_stats.get "whip"),
     ("k_per_9", s.summary_stats.get "k_per_9"),
     ("bb_per_9", s.summary_stats.get "bb_per_9"),
     ("hr_per_9", s.summary_stats.get "hr_per_9"),
     ("k_bb_ratio", s.summary_stats.get "k_bb_ratio"),
     ("avg_velocity", s.summary_stats.get "avg_velocity"),
     ("ground_ball_pct", if s.batted_ball_profile.isAvailable then s.batted_ball_profile.get "ground_ball_pct" else 0),
     ("barrel_rate_allowed", if s.batted_ball_profile.isAvailable then s.batted_ball_profile.get "barrel_rate_allowed" else 0)]

/-- The `compare_to` loop over the keys common to both summaries:
`{key}_change = after - before` and
`{key}_pct_change = ((after / before) - 1) * 100`, the latter `0` when the
before value is exactly `0`. -/
def compareEntries : List (String × ℚ) → List (String × ℚ) → List (String × ℚ)
  | [], _ => []
  | p :: rest, aft =>
    (match lookupStr aft p.1 with
     | some va =>
       [(p.1 ++ "_change", va - p.2),
        (p.1 ++ "_pct_change", if p.2 ≠ 0 then (va / p.2 - 1) * 100 else 0)]
     | none => []) ++ compareEntries rest aft

/-- The `compare_to` result: `unavail` is a dict with
`comparison_available: False`, `avail es` has `comparison_available: True`
together with the per-metric delta entries (the metadata entries, which no
consumer reads through `.get(key, 0)`, are not carried). -/
inductive Comparison where
  | unavail
  | avail (entries : List (String × ℚ))
deriving DecidableEq, Inhabited

/-- `comparison.get(k, 0)` for a delta key. -/
def Comparison.get (c : Comparison) (k : String) : ℚ :=
  match c with
  | .avail es => lookupD es k 0
  | .unavail => 0

/-- `PlayerStats.compare_to`. -/
def PlayerStats.compare_to (s o : PlayerStats) : Comparison :=
  if s.data_available = false ∨ o.data_available = false then .unavail
  else if ¬s.player_type = o.player_type then .unavail
  else .avail (compareEntries (getSummaryMetrics s) (getSummaryMetrics o))

/-- `self.situational_stats.get(k1, {}).get(k2, d)`. -/
def situGet (si : List (String × List (String × ℚ))) (k1 k2 : String) (d : ℚ) : ℚ :=
  match lookupStr si k1 with
  | some entry => lookupD entry k2 d
  | none => d

/-- `min(max(x, -1), 1)`. -/
def clampUnit (x : ℚ) : ℚ := min (max x (-1)) 1

/-- Batter component keys, in the order of the `default_components` dict
(which the computed components overwrite in place). -/
def batterKey (j : Fin 8) : String :=
  match j.val with
  | 0 => "batting_avg"
  | 1 => "on_base_pct"
  | 2 => "slug_pct"
  | 3 => "home_runs_rate"
  | 4 => "strikeout_rate"
  | 5 => "barrel_rate"
  | 6 => "launch_speed"
  | _ => "situational"

/-- Batter normalisation scales (`0.050`, `0.050`, `0.100`, `0.030`, `0.050`,
`0.030`, `2.0`, `0.070`). -/
def batterScale (j : Fin 8) : ℚ :=
  match j.val with
  | 0 => 1 / 20
  | 1 => 1 / 20
  | 2 => 1 / 10
  | 3 => 3 / 100
  | 4 => 1 / 20
  | 5 => 3 / 100
  | 6 => 2
  | _ => 7 / 100

/-- The pre-clamp batter change feeding each component, exactly as
`calculate_mss` computes it (comparison deltas for the first three; direct
recomputation from `summary_stats` / profile / situational stats for the
rest; strikeout-rate sign reversed). -/
def batterDelta (s o : PlayerStats) (j : Fin 8) : ℚ :=
  let comparison := s.compare_to o
  match j.val with
  | 0 => comparison.get "batting_avg_change"
  | 1 => comparison.get "on_base_pct_change"
  | 2 => comparison.get "slug_pct_change"
  | 3 => o.summary_stats.get "home_runs" / max (o.summary_stats.getD "total_abs" 1) 1
         - s.summary_stats.get "home_runs" / max (s.summary_stats.getD "total_abs" 1) 1
  | 4 => s.summary_stats.get "strikeouts" / max (s.summary_stats.getD "total_pas" 1) 1
         - o.summary_stats.get "strikeouts" / max (o.summary_stats.getD "total_pas" 1) 1
  | 5 => (if o.batted_ball_profile.isAvailable then o.batted_ball_profile.get "barrel_rate" else 0)
         - (if s.batted_ball_profile.isAvailable then s.batted_ball_profile.get "barrel_rate" else 0)
  | 6 => o.summary_stats.get "avg_launch_speed" - s.summary_stats.get "avg_launch_speed"
  | _ => situGet o.situational_stats "risp" "batting_avg" 0
         - situGet s.situational_stats "risp" "batting_avg" 0

/-- Pitcher component keys, in `default_components` order. -/
def pitcherKey (j : Fin 8) : String :=
  match j.val with
  | 0 => "era"
  | 1 => "whip"
  | 2 => "k_per_9"
  | 3 => "bb_per_9"
  | 4 => "hr_per_9"
  | 5 => "barrel_rate"
  | 6 => "velocity"
  | _ => "situational"

/-- Pitcher normalisation scales (`1.0`, `0.300`, `1.5`, `1.0`, `0.5`,
`0.030`, `1.0`, `0.050`). -/
def pitcherScale (j : Fin 8) : ℚ :=
  match j.val with
  | 0 => 1
  | 1 => 3 / 10
  | 2 => 3 / 2
  | 3 => 1
  | 4 => 1 / 2
  | 5 => 3 / 100
  | 6 => 1
  | _ => 1 / 20

/-- The pre-clamp pitcher change feeding each component (ERA, WHIP, BB/9,
HR/9, barrel-rate-allowed and situational sign-reversed; RISP
batting-average-against defaults to `0.3` when absent). -/
def pitcherDelta (s o : PlayerStats) (j : Fin 8) : ℚ :=
  let comparison := s.compare_to o
  match j.val with
  | 0 => s.summary_stats.get "era" - o.summary_stats.get "era"
  | 1 => s.summary_stats.get "whip" - o.summary_stats.get "whip"
  | 2 => comparison.get "k_per_9_change"
  | 3 => -(comparison.get "bb_per_9_change")
  | 4 => -(comparison.get "hr_per_9_change")
  | 5 => (if s.batted_ball_profile.isAvailable then s.batted_ball_profile.get "barrel_rate_allowed" else 0)
         - (if o.batted_ball_profile.isAvailable then o.batted_ball_profile.get "barrel_rate_allowed" else 0)
  | 6 => o.summary_stats.get "avg_velocity" - s.summary_stats.get "avg_velocity"
  | _ => situGet s.situational_stats "risp" "batting_avg_against" (3 / 10)
         - situGet o.situational_stats "risp" "batting_avg_against" (3 / 10)

/-- The batter `components` dict after all eight assignments. -/
def batterComponents (s o : PlayerStats) : List (String × ℚ) :=
  (List.finRange 8).map (fun j => (batterKey j, clampUnit (batterDelta s o j / batterScale j)))

/-- The pitcher `components` dict after all eight assignments. -/
def pitcherComponents (s o : PlayerStats) : List (String × ℚ) :=
  (List.finRange 8).map (fun j => (pitcherKey j, clampUnit (pitcherDelta s o j / pitcherScale j)))

/-- Default batter weights. -/
def defaultBatterWeights : List (String × ℚ) :=
  [("batting_avg", 3 / 20), ("on_base_pct", 3 / 20), ("slug_pct", 3 / 20),
   ("home_runs_rate", 1 / 10), ("strikeout_rate", 1 / 10), ("barrel_rate", 3 / 20),
   ("launch_speed", 1 / 10), ("situational", 1 / 10)]

/-- Default pitcher weights. -/
def defaultPitcherWeights : List (String × ℚ) :=
  [("era", 3 / 20), ("whip", 3 / 20), ("k_per_9", 3 / 20), ("bb_per_9", 1 / 10),
   ("hr_per_9", 1 / 10), ("barrel_rate", 3 / 20), ("velocity", 1 / 10), ("situational", 1 / 10)]

/-- `default_components` for a batter: every component key at `0`. -/
def batterDefaultComponents : List (String × ℚ) :=
  [("batting_avg", 0), ("on_base_pct", 0), ("slug_pct", 0), ("home_runs_rate", 0),
   ("strikeout_rate", 0), ("barrel_rate", 0), ("launch_speed", 0), ("situational", 0)]

/-- `default_components` for a pitcher. -/
def pitcherDefaultComponents : List (String × ℚ) :=
  [("era", 0), ("whip", 0), ("k_per_9", 0), ("bb_per_9", 0), ("hr_per_9", 0),
   ("barrel_rate", 0), ("velocity", 0), ("situational", 0)]

/-- `total_weight = sum(weight_config.values())`: every weight in the config
counts, whether or not its key names a component. -/
def totalWeight (w : List (String × ℚ)) : ℚ := (w.map Prod.snd).sum

/-- The `weighted_sum` loop: each component contributes
`value * weight_config[key]` when its key is in the config, else nothing. -/
def weightedSum (comps w : List (String × ℚ)) : ℚ :=
  (comps.map (fun p =>
    match lookupStr w p.1 with
    | some wt => p.2 * wt
    | none => 0)).sum

/-- The `(score, details)` pair returned by `calculate_mss`. -/
structure MSSDetail where
  mss_available : Bool
  mss_score : ℚ
  components : List (String × ℚ)
  weights : List (String × ℚ)
deriving DecidableEq, Inhabited

/-- `PlayerStats.calculate_mss`: default weights when no config is passed,
neutral `(50.0, zero components)` when the comparison is unavailable,
otherwise the clamped weighted combination
`50 + weighted_sum / total_weight * 50`. -/
def PlayerStats.calculate_mss (s o : PlayerStats)
    (weight_config : Option (List (String × ℚ))) : ℚ × MSSDetail :=
  let wc := match weight_config with
    | some w => w
    | none => if s.player_type = "batter" then defaultBatterWeights else defaultPitcherWeights
  let comparison := s.compare_to o
  let defaultComponents :=
    if s.player_type = "batter" then batterDefaultComponents else pitcherDefaultComponents
  match comparison with
  | .unavail =>
    (50, { mss_available := true, mss_score := 50, components := defaultComponents, weights := wc })
  | .avail _ =>
    let components := if s.player_type = "batter" then batterComponents s o else pitcherComponents s o
    let total_weight := totalWeight wc
    let weighted_sum := weightedSum components wc
    let mss := 50 + weighted_sum / total_weight * 50
    (mss, { mss_available := true, mss_score := mss, components := components, weights := wc })

/-- The components dict `calculate_mss` computes in its available branch
(role-selected). -/
def mssComponentsOf (s o : PlayerStats) : List (String × ℚ) :=
  if s.player_type = "batter" then batterComponents s o else pitcherComponents s o

/-- The default weight table `calculate_mss` selects for `s`'s role. -/
def mssDefaultWeights (s : PlayerStats) : List (String × ℚ) :=
  if s.player_type = "batter" then defaultBatterWeights else defaultPitcherWeights

/-- The pre-clamp change of component `j`, role-selected (the non-batter
branch of `calculate_mss` is the pitcher branch). -/
def mssDelta (s o : PlayerStats) (j : Fin 8) : ℚ :=
  if s.player_type = "batter" then batterDelta s o j else pitcherDelta s o j

/-- Component key `j`, role-selected. -/
def mssKey (s : PlayerStats) (j : Fin 8) : String :=
  if s.player_type = "batter" then batterKey j else pitcherKey j

/-- Modelled from the spec: "Σ weight over components present in the weight
config", read as the sum of the configured weights of the component keys that
appear in the config (to be compared with the `total_weight` the code
actually divides by, which sums every entry of the config). -/
def specMatchedWeight (comps w : List (String × ℚ)) : ℚ :=
  (comps.map (fun p =>
    match lookupStr w p.1 with
    | some wt => wt
    | none => 0)).sum

/-- Modelled from the spec: `50 + 50 × (Σ component · weight) / (Σ weight over
components present in the weight config)`. -/
def specFinalScore (comps w : List (String × ℚ)) : ℚ :=
  50 + 50 * weightedSum comps w / specMatchedWeight comps w

/-- A uniform weight configuration: every component key of the role at the
same weight `1/8`. -/
def uniformWeights (pt : String) : List (String × ℚ) :=
  (if pt = "batter" then (List.finRange 8).map batterKey
   else (List.finRange 8).map pitcherKey).map (fun k => (k, 1 / 8))

/-- Concrete data: a one-row batter frame whose only outcome is a strikeout
(batting average 0, strikeout rate 1, no profile or situational columns). -/
def dfKO : StatsDF := ⟨{ events := true }, [{ events := some "strikeout" }]⟩

/-- Concrete data: a one-row batter frame with a barreled home run hit with a
runner on second (every batter metric at its maximum). -/
def dfHR : StatsDF :=
  ⟨{ events := true, launch_speed := true, launch_angle := true, bb_type := true,
     on_1b := true, on_2b := true, on_3b := true },
   [{ events := some "home_run", launch_speed := some 100, launch_angle := some 20,
      bb_type := some "fly_ball", on_2b := some 1 }]⟩

/-- Concrete data: a one-row frame with a single and no other columns. -/
def dfSingle : StatsDF := ⟨{ events := true }, [{ events := some "single" }]⟩

/-- Concrete data: `dfSingle` plus a launch-speed column at 90 mph. -/
def dfSingle90 : StatsDF :=
  ⟨{ events := true, launch_speed := true },
   [{ events := some "single", launch_speed := some 90 }]⟩

/-- Concrete data: `dfSingle` plus a launch-speed column at 91 mph. -/
def dfSingle91 : StatsDF :=
  ⟨{ events := true, launch_speed := true },
   [{ events := some "single", launch_speed := some 91 }]⟩

/-- Concrete data: one row, no columns at all. -/
def dfNoCols : StatsDF := ⟨{}, [{}]⟩

/-- Concrete data: a pitch-type label with launch columns but no description
column (the frame on which the pitch-type loop raises `KeyError`). -/
def dfPTNoDesc : StatsDF :=
  ⟨{ pitch_type := true, launch_speed := true, launch_angle := true },
   [{ pitch_type := some "FF" }]⟩

/-- Concrete data: the empty frame. -/
def dfEmpty : StatsDF := ⟨{}, []⟩

/-- The strikeout snapshot, built by the constructor. -/
def sKO : PlayerStats :=
  (PlayerStats.init "a" none dfKO none none "batter").toOption.getD default

/-- The home-run snapshot, built by the constructor. -/
def sHR : PlayerStats :=
  (PlayerStats.init "b" none dfHR none none "batter").toOption.getD default

/-- The single-only snapshot, built by the constructor. -/
def sSingle : PlayerStats :=
  (PlayerStats.init "c" none dfSingle none none "batter").toOption.getD default

/-- The single-at-90-mph snapshot, built by the constructor. -/
def sSingle90 : PlayerStats :=
  (PlayerStats.init "c" none dfSingle90 none none "batter").toOption.getD default

/-- The single-at-91-mph snapshot, built by the constructor. -/
def sSingle91 : PlayerStats :=
  (PlayerStats.init "c" none dfSingle91 none none "batter").toOption.getD default

/-- An empty batter snapshot, built by the constructor. -/
def sEmptyB : PlayerStats :=
  (PlayerStats.init "d" none dfEmpty none none "batter").toOption.getD default

/-- A second empty batter snapshot, built by the constructor. -/
def sEmptyB2 : PlayerStats :=
  (PlayerStats.init "e" none dfEmpty none none "batter").toOption.getD default

/-- Removes the first entry with the given key (a proof device matching how a
dict associates one value per key). -/
def eraseKey : List (String × ℚ) → String → List (String × ℚ)
  | [], _ => []
  | p :: rest, k => if p.1 = k then rest else p :: eraseKey rest k

/-- The default weight of component `j` (the same numeric pattern for both
roles: `.15, .15, .15, .1, .1, .15, .1, .1`). -/
def defaultWeightVal (j : Fin 8) : ℚ :=
  match j.val with
  | 0 => 3 / 20
  | 1 => 3 / 20
  | 2 => 3 / 20
  | 3 => 1 / 10
  | 4 => 1 / 10
  | 5 => 3 / 20
  | 6 => 1 / 10
  | _ => 1 / 10

/-!  Theorems.  -/

theorem clampUnit_abs_le (x : ℚ) : |clampUnit x| ≤ 1 := by
  unfold clampUnit
  rw [abs_le]
  refine ⟨le_min (le_max_right x (-1)) (by norm_num), min_le_right _ _⟩

theorem clampUnit_mono {x y : ℚ} (h : x ≤ y) : clampUnit x ≤ clampUnit y := by
  unfold clampUnit
  exact min_le_min (max_le_max h le_rfl) le_rfl

theorem totalWeight_nonneg {w : List (String × ℚ)} (h : ∀ p ∈ w, 0 ≤ p.2) :
    0 ≤ totalWeight w := by
  refine List.sum_nonneg ?_
  intro x hx
  obtain ⟨p, hp, rfl⟩ := List.mem_map.1 hx
  exact h p hp

theorem lookupStr_mem {w : List (String × ℚ)} {k : String} {v : ℚ}
    (h : lookupStr w k = some v) : (k, v) ∈ w := by
  induction w with
  | nil => simp [lookupStr] at h
  | cons p rest ih =>
    rw [lookupStr] at h
    by_cases hk : k = p.1
    · rw [if_pos hk] at h
      obtain rfl : p.2 = v := by injection h
      exact hk ▸ List.mem_cons_self _ _
    · rw [if_neg hk] at h
      exact List.mem_cons_of_mem _ (ih h)

theorem lookupStr_of_mem_nodup {w : List (String × ℚ)} {k : String} {v : ℚ}
    (hnd : (w.map Prod.fst).Nodup) (h : (k, v) ∈ w) : lookupStr w k = some v := by
  induction w with
  | nil => simp at h
  | cons p rest ih =>
    rw [List.map_cons, List.nodup_cons] at hnd
    rcases List.mem_cons.1 h with h | h
    · rw [lookupStr, if_pos (by rw [← h]), ← h]
    · have hk : ¬k = p.1 := by
        intro hkp
        exact hnd.1 (hkp ▸ List.mem_map_of_mem Prod.fst h)
      rw [lookupStr, if_neg hk]
      exact ih hnd.2 h

theorem lookupStr_eraseKey_ne {w : List (String × ℚ)} {k k2 : String} (hne : ¬k2 = k) :
    lookupStr (eraseKey w k) k2 = lookupStr w k2 := by
  induction w with
  | nil => rfl
  | cons p rest ih =>
    rw [eraseKey]
    by_cases hp : p.1 = k
    · rw [if_pos hp, lookupStr, if_neg (by rw [hp]; exact hne)]
    · rw [if_neg hp, lookupStr, lookupStr]
      by_cases hk2 : k2 = p.1
      · rw [if_pos hk2, if_pos hk2]
      · rw [if_neg hk2, if_neg hk2, ih]

theorem totalWeight_eraseKey {w : List (String × ℚ)} {k : String} {v : ℚ}
    (h : lookupStr w k = some v) : totalWeight w = v + totalWeight (eraseKey w k) := by
  induction w with
  | nil => simp [lookupStr] at h
  | cons p rest ih =>
    rw [lookupStr] at h
    by_cases hk : k = p.1
    · rw [if_pos hk] at h
      obtain rfl : p.2 = v := by injection h
      rw [eraseKey, if_pos hk.symm]
      simp [totalWeight]
    · rw [if_neg hk] at h
      rw [eraseKey, if_neg (fun hp => hk hp.symm)]
      simp only [totalWeight, List.map_cons, List.sum_cons] at *
      rw [ih h]
      ring

theorem mem_eraseKey {w : List (String × ℚ)} {k : String} {p : String × ℚ}
    (h : p ∈ eraseKey w k) : p ∈ w := by
  induction w with
  | nil => simp [eraseKey] at h
  | cons q rest ih =>
    rw [eraseKey] at h
    by_cases hq : q.1 = k
    · rw [if_pos hq] at h
      exact List.mem_cons_of_mem _ h
    · rw [if_neg hq] at h
      rcases List.mem_cons.1 h with h | h
      · exact h ▸ List.mem_cons_self _ _
      · exact List.mem_cons_of_mem _ (ih h)

theorem weightedSum_congr {comps w1 w2 : List (String × ℚ)}
    (h : ∀ p ∈ comps, lookupStr w2 p.1 = lookupStr w1 p.1) :
    weightedSum comps w2 = weightedSum comps w1 := by
  unfold weightedSum
  induction comps with
  | nil => rfl
  | cons p rest ih =>
    simp only [List.map_cons, List.sum_cons]
    rw [h p (List.mem_cons_self _ _), ih (fun q hq => h q (List.mem_cons_of_mem _ hq))]

theorem weightedSum_abs_le :
    ∀ (comps w : List (String × ℚ)), (comps.map Prod.fst).Nodup →
      (∀ p ∈ comps, |p.2| ≤ 1) → (∀ p ∈ w, 0 ≤ p.2) →
      |weightedSum comps w| ≤ totalWeight w := by
  intro comps
  induction comps with
  | nil =>
    intro w _ _ hw
    simpa [weightedSum] using totalWeight_nonneg hw
  | cons p rest ih =>
    intro w hnd hb hw
    rw [List.map_cons, List.nodup_cons] at hnd
    have hbrest : ∀ q ∈ rest, |q.2| ≤ 1 := fun q hq => hb q (List.mem_cons_of_mem _ hq)
    have hsplit : weightedSum (p :: rest) w =
        (match lookupStr w p.1 with
         | some wt => p.2 * wt
         | none => 0) + weightedSum rest w := by
      simp [weightedSum]
    rw [hsplit]
    cases hl : lookupStr w p.1 with
    | none =>
      simp only
      calc |0 + weightedSum rest w| = |weightedSum rest w| := by rw [zero_add]
        _ ≤ totalWeight w := ih w hnd.2 hbrest hw
    | some wt =>
      simp only
      have hwt : 0 ≤ wt := hw _ (lookupStr_mem hl)
      have hc : |p.2 * wt| ≤ wt := by
        rw [abs_mul, abs_of_nonneg hwt]
        calc |p.2| * wt ≤ 1 * wt := by
              exact mul_le_mul_of_nonneg_right (hb p (List.mem_cons_self _ _)) hwt
          _ = wt := one_mul wt
      have hrest : weightedSum rest (eraseKey w p.1) = weightedSum rest w := by
        refine weightedSum_congr ?_
        intro q hq
        refine lookupStr_eraseKey_ne ?_
        intro hqp
        exact hnd.1 (hqp ▸ List.mem_map_of_mem Prod.fst hq)
      have hwe : ∀ q ∈ eraseKey w p.1, 0 ≤ q.2 := fun q hq => hw q (mem_eraseKey hq)
      have hihe := ih (eraseKey w p.1) hnd.2 hbrest hwe
      rw [hrest] at hihe
      calc |p.2 * wt + weightedSum rest w| ≤ |p.2 * wt| + |weightedSum rest w| := abs_add _ _
        _ ≤ wt + totalWeight (eraseKey w p.1) := add_le_add hc hihe
        _ = totalWeight w := (totalWeight_eraseKey hl).symm

theorem compare_to_avail {s o : PlayerStats} (hs : s.data_available = true)
    (ho : o.data_available = true) (hty : s.player_type = o.player_type) :
    s.compare_to o = .avail (compareEntries (getSummaryMetrics s) (getSummaryMetrics o)) := by
  unfold PlayerStats.compare_to
  rw [if_neg (by simp [hs, ho]), if_neg (by simp [hty])]

theorem compare_to_unavail {s o : PlayerStats}
    (h : s.data_available = false ∨ o.data_available = false ∨ ¬s.player_type = o.player_type) :
    s.compare_to o = .unavail := by
  unfold PlayerStats.compare_to
  rcases h with h | h | h
  · rw [if_pos (Or.inl h)]
  · rw [if_pos (Or.inr h)]
  · by_cases h2 : s.data_available = false ∨ o.data_available = false
    · rw [if_pos h2]
    · rw [if_neg h2, if_pos h]

theorem calculate_mss_some_avail {s o : PlayerStats} {W : List (String × ℚ)}
    (hs : s.data_available = true) (ho : o.data_available = true)
    (hty : s.player_type = o.player_type) :
    s.calculate_mss o (some W) =
      (50 + weightedSum (mssComponentsOf s o) W / totalWeight W * 50,
       { mss_available := true,
         mss_score := 50 + weightedSum (mssComponentsOf s o) W / totalWeight W * 50,
         components := mssComponentsOf s o, weights := W }) := by
  unfold PlayerStats.calculate_mss
  rw [compare_to_avail hs ho hty]
  simp [mssComponentsOf]

theorem calculate_mss_none_avail {s o : PlayerStats}
    (hs : s.data_available = true) (ho : o.data_available = true)
    (hty : s.player_type = o.player_type) :
    s.calculate_mss o none =
      (50 + weightedSum (mssComponentsOf s o) (mssDefaultWeights s)
          / totalWeight (mssDefaultWeights s) * 50,
       { mss_available := true,
         mss_score := 50 + weightedSum (mssComponentsOf s o) (mssDefaultWeights s)
            / totalWeight (mssDefaultWeights s) * 50,
         components := mssComponentsOf s o, weights := mssDefaultWeights s }) := by
  unfold PlayerStats.calculate_mss
  rw [compare_to_avail hs ho hty]
  simp [mssComponentsOf, mssDefaultWeights]

theorem mssComponentsOf_keys_nodup (s o : PlayerStats) :
    ((mssComponentsOf s o).map Prod.fst).Nodup := by
  unfold mssComponentsOf
  by_cases hb : s.player_type = "batter"
  · rw [if_pos hb]
    unfold batterComponents
    rw [List.map_map]
    exact (by decide : (((List.finRange 8).map (fun j => batterKey j))).Nodup)
  · rw [if_neg hb]
    unfold pitcherComponents
    rw [List.map_map]
    exact (by decide : (((List.finRange 8).map (fun j => pitcherKey j))).Nodup)

theorem mssComponentsOf_abs_le (s o : PlayerStats) :
    ∀ p ∈ mssComponentsOf s o, |p.2| ≤ 1 := by
  intro p hp
  unfold mssComponentsOf at hp
  by_cases hb : s.player_type = "batter"
  · rw [if_pos hb] at hp
    obtain ⟨j, _, rfl⟩ := List.mem_map.1 hp
    exact clampUnit_abs_le _
  · rw [if_neg hb] at hp
    obtain ⟨j, _, rfl⟩ := List.mem_map.1 hp
    exact clampUnit_abs_le _

/-- C1: for same-role snapshots with data available and any weight
configuration with non-negative weights of positive total, the score
`calculate_mss` returns lies in `[0, 100]` (every component is clamped to
`[-1, 1]` before weighting, so the combination
`50 + weighted_sum / total_weight * 50` cannot leave the range). -/
theorem mss_score_in_range (s o : PlayerStats) (W : List (String × ℚ))
    (hty : s.player_type = o.player_type) (hs : s.data_available = true)
    (ho : o.data_available = true) (hw : ∀ p ∈ W, 0 ≤ p.2)
    (hpos : 0 < totalWeight W) :
    0 ≤ (s.calculate_mss o (some W)).1 ∧ (s.calculate_mss o (some W)).1 ≤ 100 := by
  rw [calculate_mss_some_avail hs ho hty]
  have habs := weightedSum_abs_le (mssComponentsOf s o) W (mssComponentsOf_keys_nodup s o)
    (mssComponentsOf_abs_le s o) hw
  have hb := abs_le.1 habs
  have h1 : weightedSum (mssComponentsOf s o) W / totalWeight W ≤ 1 :=
    (div_le_one hpos).2 hb.2
  have h2 : -1 ≤ weightedSum (mssComponentsOf s o) W / totalWeight W := by
    rw [neg_le, ← neg_div]
    exact (div_le_one hpos).2 (by linarith [hb.1])
  constructor <;> linarith

/-- Witness for C1 at the strikeout/home-run snapshot pair and the
single-entry weight configuration. -/
theorem mss_score_in_range_witness :
    0 ≤ (sKO.calculate_mss sHR (some [("batting_avg", 1)])).1 ∧
      (sKO.calculate_mss sHR (some [("batting_avg", 1)])).1 ≤ 100 :=
  mss_score_in_range sKO sHR [("batting_avg", 1)] (by with_unfolding_all decide)
    (by with_unfolding_all decide) (by with_unfolding_all decide)
    (by with_unfolding_all decide) (by with_unfolding_all decide)

/-- C3: `_calculate_all_stats` raises `ValueError` for every player-type
string other than `batter` and `pitcher`, whatever the record set. -/
theorem aggregation_invalid_role (pt : String) (df : StatsDF)
    (h1 : ¬pt = "batter") (h2 : ¬pt = "pitcher") :
    calculateAllStats pt df = .error ("Unknown player type: " ++ pt) := by
  unfold calculateAllStats
  rw [if_neg h1, if_neg h2]

/-- Witness for C3 at the role string `catcher` and the empty frame. -/
theorem aggregation_invalid_role_witness :
    calculateAllStats "catcher" dfEmpty = .error ("Unknown player type: " ++ "catcher") :=
  aggregation_invalid_role "catcher" dfEmpty (by decide) (by decide)

/-- C10: constructing `PlayerStats` with an empty record set never raises,
for every role string whatsoever: role validation is skipped entirely, the
snapshot has `data_available = false` and all four derived views are left
empty. -/
theorem init_empty_never_raises (pn : String) (pid : Option ℤ) (cols : Cols)
    (sd ed : Option String) (role : String) :
    PlayerStats.init pn pid ⟨cols, []⟩ sd ed role =
      .ok { player_name := pn, player_id := pid, start_date := sd, end_date := ed,
            raw_data := ⟨cols, []⟩, player_type := strToLower role,
            data_available := false, summary_stats := .empty,
            batted_ball_profile := .empty, pitch_type_stats := .empty,
            situational_stats := [] } := rfl

/-- C5: for every snapshot produced by the constructor, `data_available` is
the negation of record-set emptiness, and on an empty record set all four
views are empty and every `summary_stats` lookup returns the `0` default. -/
theorem snapshot_empty_iff (pn : String) (pid : Option ℤ) (df : StatsDF)
    (sd ed : Option String) (role : String) (s : PlayerStats)
    (h : PlayerStats.init pn pid df sd ed role = .ok s) :
    s.data_available = !df.rows.isEmpty ∧
    (df.rows.isEmpty = true →
      s.summary_stats = .empty ∧ s.batted_ball_profile = .empty ∧
      s.pitch_type_stats = .empty ∧ s.situational_stats = [] ∧
      ∀ k, s.summary_stats.get k = 0) := by
  unfold PlayerStats.init at h
  by_cases he : df.rows.isEmpty = true
  · rw [if_pos he] at h
    have h2 := Except.ok.inj h
    subst h2
    refine ⟨by rw [he]; rfl, fun _ => ⟨rfl, rfl, rfl, rfl, fun k => rfl⟩⟩
  · rw [if_neg he] at h
    have he2 : df.rows.isEmpty = false := by
      cases hh : df.rows.isEmpty
      · rfl
      · exact absurd hh he
    cases hc : calculateAllStats (strToLower role) df with
    | error e =>
      rw [hc] at h
      exact absurd h (by simp)
    | ok q =>
      obtain ⟨su, bb, pts, si⟩ := q
      rw [hc] at h
      have h2 := Except.ok.inj h
      subst h2
      exact ⟨by rw [he2]; rfl, fun habs => absurd habs he⟩

/-- Witness for C5 at an empty batter snapshot. -/
theorem snapshot_empty_iff_witness :
    sEmptyB.data_available = !dfEmpty.rows.isEmpty ∧
    sEmptyB.summary_stats = .empty ∧ sEmptyB.situational_stats = [] ∧
    sEmptyB.summary_stats.get "batting_avg" = 0 ∧ sEmptyB.summary_stats.get "era" = 0 := by
  have h := snapshot_empty_iff "d" none dfEmpty none none "batter" sEmptyB rfl
  exact ⟨h.1, (h.2 rfl).1, (h.2 rfl).2.2.2.1, (h.2 rfl).2.2.2.2 "batting_avg",
    (h.2 rfl).2.2.2.2 "era"⟩

/-- C6: whenever the comparison is unavailable (missing data on either side
or differing roles), `calculate_mss` returns exactly `(50, detail)` where the
detail holds every role-specific component key at exactly `0` together with
the weight configuration in effect. -/
theorem mss_unavailable_neutral (s o : PlayerStats) (wc : Option (List (String × ℚ)))
    (h : s.data_available = false ∨ o.data_available = false ∨
        ¬s.player_type = o.player_type) :
    s.calculate_mss o wc =
      (50, { mss_available := true, mss_score := 50,
             components := if s.player_type = "batter" then batterDefaultComponents
               else pitcherDefaultComponents,
             weights := wc.getD (mssDefaultWeights s) }) ∧
    batterDefaultComponents.map Prod.snd = List.replicate 8 0 ∧
    pitcherDefaultComponents.map Prod.snd = List.replicate 8 0 := by
  refine ⟨?_, by decide, by decide⟩
  unfold PlayerStats.calculate_mss
  rw [compare_to_unavail h]
  cases wc <;> simp [mssDefaultWeights]

/-- Witness for C6 at a pair of empty batter snapshots. -/
theorem mss_unavailable_neutral_witness :
    sEmptyB.calculate_mss sEmptyB2 none =
      (50, { mss_available := true, mss_score := 50,
             components := if sEmptyB.player_type = "batter" then batterDefaultComponents
               else pitcherDefaultComponents,
             weights := (none : Option (List (String × ℚ))).getD (mssDefaultWeights sEmptyB) }) ∧
    batterDefaultComponents.map Prod.snd = List.replicate 8 0 ∧
    pitcherDefaultComponents.map Prod.snd = List.replicate 8 0 :=
  mss_unavailable_neutral sEmptyB sEmptyB2 none (Or.inl (by with_unfolding_all decide))

theorem getSummaryMetrics_keys_nodup (s : PlayerStats) :
    ((getSummaryMetrics s).map Prod.fst).Nodup := by
  unfold getSummaryMetrics
  split
  · simp
  · split
    · simp only [List.map_cons, List.map_nil]
      decide
    · simp only [List.map_cons, List.map_nil]
      decide

theorem compareEntries_vals_zero {bef aft : List (String × ℚ)}
    (h : ∀ p ∈ bef, lookupStr aft p.1 = some p.2 ∨ lookupStr aft p.1 = none) :
    ∀ q ∈ compareEntries bef aft, q.2 = 0 := by
  induction bef with
  | nil => simp [compareEntries]
  | cons p rest ih =>
    intro q hq
    rw [compareEntries] at hq
    have hrest := ih (fun r hr => h r (List.mem_cons_of_mem _ hr))
    rcases List.mem_append.1 hq with hq | hq
    · rcases h p (List.mem_cons_self _ _) with hl | hl
      · rw [hl] at hq
        simp only [List.mem_cons, List.mem_singleton] at hq
        rcases hq with hq | hq | hq
        · rw [hq]
          simp
        · rw [hq]
          by_cases hz : p.2 ≠ 0
          · simp only [if_pos hz]
            rw [div_self (by exact hz)]
            ring
          · simp only [if_neg hz]
        · exact absurd hq (by simp)
      · rw [hl] at hq
        simp at hq
    · exact hrest q hq

theorem lookupD_zero_of_all_zero {es : List (String × ℚ)} (h : ∀ q ∈ es, q.2 = 0)
    (k : String) : lookupD es k 0 = 0 := by
  unfold lookupD
  cases hl : lookupStr es k with
  | none => rfl
  | some v =>
    have := h _ (lookupStr_mem hl)
    simpa using this

theorem selfCompare_get_zero (s : PlayerStats) (hs : s.data_available = true) (k : String) :
    (s.compare_to s).get k = 0 := by
  rw [compare_to_avail hs hs rfl]
  unfold Comparison.get
  refine lookupD_zero_of_all_zero ?_ k
  refine compareEntries_vals_zero ?_
  intro p hp
  exact Or.inl (lookupStr_of_mem_nodup (getSummaryMetrics_keys_nodup s) hp)

theorem clampUnit_zero : clampUnit 0 = 0 := by
  unfold clampUnit
  norm_num

theorem batterDelta_self (s : PlayerStats) (hs : s.data_available = true) (j : Fin 8) :
    batterDelta s s j = 0 := by
  fin_cases j <;> simp [batterDelta, selfCompare_get_zero s hs]

theorem pitcherDelta_self (s : PlayerStats) (hs : s.data_available = true) (j : Fin 8) :
    pitcherDelta s s j = 0 := by
  fin_cases j <;> simp [pitcherDelta, selfCompare_get_zero s hs]

theorem weightedSum_of_vals_zero {comps w : List (String × ℚ)}
    (h : ∀ p ∈ comps, p.2 = 0) : weightedSum comps w = 0 := by
  unfold weightedSum
  induction comps with
  | nil => rfl
  | cons p rest ih =>
    simp only [List.map_cons, List.sum_cons]
    rw [ih (fun q hq => h q (List.mem_cons_of_mem _ hq)), h p (List.mem_cons_self _ _)]
    cases lookupStr w p.1 <;> simp

/-- C8: round-trip neutrality — scoring a snapshot with data against itself
yields every component exactly `0` and total score exactly `50`. -/
theorem mss_roundtrip_neutral (s : PlayerStats) (hs : s.data_available = true) :
    (s.calculate_mss s none).1 = 50 ∧
    ((s.calculate_mss s none).2.components).map Prod.snd = List.replicate 8 0 := by
  rw [calculate_mss_none_avail hs hs rfl]
  have hcomp : (mssComponentsOf s s).map Prod.snd = List.replicate 8 0 := by
    unfold mssComponentsOf
    by_cases hb : s.player_type = "batter"
    · rw [if_pos hb]
      unfold batterComponents
      rw [List.map_map]
      have hcg : ∀ j ∈ List.finRange 8,
          (Prod.snd ∘ fun j => (batterKey j, clampUnit (batterDelta s s j / batterScale j))) j
            = (fun _ => (0 : ℚ)) j := by
        intro j _
        simp only [Function.comp]
        rw [batterDelta_self s hs, zero_div, clampUnit_zero]
      rw [List.map_congr_left hcg, List.map_const']
      simp
    · rw [if_neg hb]
      unfold pitcherComponents
      rw [List.map_map]
      have hcg : ∀ j ∈ List.finRange 8,
          (Prod.snd ∘ fun j => (pitcherKey j, clampUnit (pitcherDelta s s j / pitcherScale j))) j
            = (fun _ => (0 : ℚ)) j := by
        intro j _
        simp only [Function.comp]
        rw [pitcherDelta_self s hs, zero_div, clampUnit_zero]
      rw [List.map_congr_left hcg, List.map_const']
      simp
  have hvals : ∀ p ∈ mssComponentsOf s s, p.2 = 0 := by
    intro p hp
    have : p.2 ∈ (mssComponentsOf s s).map Prod.snd := List.mem_map_of_mem Prod.snd hp
    rw [hcomp] at this
    exact List.eq_of_mem_replicate this
  constructor
  · show 50 + weightedSum (mssComponentsOf s s) (mssDefaultWeights s)
        / totalWeight (mssDefaultWeights s) * 50 = 50
    rw [weightedSum_of_vals_zero hvals, zero_div]
    ring
  · exact hcomp

/-- Witness for C8 at the strikeout snapshot. -/
theorem mss_roundtrip_neutral_witness :
    (sKO.calculate_mss sKO none).1 = 50 ∧
    ((sKO.calculate_mss sKO none).2.components).map Prod.snd = List.replicate 8 0 :=
  mss_roundtrip_neutral sKO (by with_unfolding_all decide)

theorem compareEntries_pct_mem {bef aft : List (String × ℚ)} {k : String} {vb va : ℚ}
    (hb : (k, vb) ∈ bef) (ha : lookupStr aft k = some va) :
    (k ++ "_pct_change", if vb ≠ 0 then (va / vb - 1) * 100 else 0) ∈
      compareEntries bef aft := by
  induction bef with
  | nil => simp at hb
  | cons p rest ih =>
    rw [compareEntries]
    rcases List.mem_cons.1 hb with hp | hp
    · rw [← hp]
      dsimp only
      rw [ha]
      refine List.mem_append_left _ ?_
      simp
    · exact List.mem_append_right _ (ih hp)

/-- C7: `compare_to` flags the comparison unavailable (never raising) when
either snapshot lacks data or roles differ; and on an available comparison a
metric whose before-value is exactly `0` is reported with percent-delta
exactly `0` rather than a division error. -/
theorem compare_robustness (s o : PlayerStats) (k : String) (vb va : ℚ) :
    ((s.data_available = false ∨ o.data_available = false ∨
        ¬s.player_type = o.player_type) → s.compare_to o = .unavail) ∧
    (s.data_available = true → o.data_available = true →
      s.player_type = o.player_type → (k, vb) ∈ getSummaryMetrics s →
      (k, va) ∈ getSummaryMetrics o → vb = 0 →
      s.compare_to o =
        .avail (compareEntries (getSummaryMetrics s) (getSummaryMetrics o)) ∧
      (k ++ "_pct_change", (0 : ℚ)) ∈
        compareEntries (getSummaryMetrics s) (getSummaryMetrics o)) := by
  refine ⟨compare_to_unavail, ?_⟩
  intro hs ho hty hms hmo hz
  refine ⟨compare_to_avail hs ho hty, ?_⟩
  have ha := lookupStr_of_mem_nodup (getSummaryMetrics_keys_nodup o) hmo
  have hmem := compareEntries_pct_mem hms ha
  rw [hz] at hmem
  simpa using hmem

/-- Witness for C7: unavailability on empty snapshots, and a zero before
batting average reported with percent-delta `0`. -/
theorem compare_robustness_witness :
    sEmptyB.compare_to sEmptyB2 = .unavail ∧
    sKO.compare_to sHR =
      .avail (compareEntries (getSummaryMetrics sKO) (getSummaryMetrics sHR)) ∧
    ("batting_avg" ++ "_pct_change", (0 : ℚ)) ∈
      compareEntries (getSummaryMetrics sKO) (getSummaryMetrics sHR) := by
  have h1 := (compare_robustness sEmptyB sEmptyB2 "x" 0 0).1
    (Or.inl (by with_unfolding_all decide))
  have h2 := (compare_robustness sKO sHR "batting_avg" 0 1).2
    (by with_unfolding_all decide) (by with_unfolding_all decide)
    (by with_unfolding_all decide) (by with_unfolding_all decide)
    (by with_unfolding_all decide) rfl
  exact ⟨h1, h2.1, h2.2⟩

theorem weightedSum_factor {comps w : List (String × ℚ)} {u : ℚ}
    (h : ∀ p ∈ comps, lookupStr w p.1 = some u) :
    weightedSum comps w = ((comps.map Prod.snd).sum) * u := by
  unfold weightedSum
  induction comps with
  | nil => simp
  | cons p rest ih =>
    simp only [List.map_cons, List.sum_cons]
    rw [h p (List.mem_cons_self _ _), ih (fun q hq => h q (List.mem_cons_of_mem _ hq))]
    ring

theorem uniformWeights_lookup_batter :
    ∀ j : Fin 8, lookupStr (uniformWeights "batter") (batterKey j) = some (1 / 8) := by
  with_unfolding_all decide

theorem uniformWeights_lookup_pitcher :
    ∀ j : Fin 8, lookupStr (uniformWeights "pitcher") (pitcherKey j) = some (1 / 8) := by
  with_unfolding_all decide

theorem uniformWeights_total_batter : totalWeight (uniformWeights "batter") = 1 := by
  with_unfolding_all decide

theorem uniformWeights_total_pitcher : totalWeight (uniformWeights "pitcher") = 1 := by
  with_unfolding_all decide

theorem uniformWeights_ne_batter (pt : String) (h : ¬pt = "batter") :
    uniformWeights pt = uniformWeights "pitcher" := by
  unfold uniformWeights
  rw [if_neg h, if_neg (by decide)]

/-- C2 counterexample: with the weight configuration
`{'batting_avg': 1, 'junk': 1}` (whose `junk` key names no component) the
code divides by the sum of all configured weights (score 75), while the
formula of the claim — dividing by the weights of components present in the
config — gives 100. -/
theorem mss_formula_counterexample :
    (sKO.calculate_mss sHR (some [("batting_avg", 1), ("junk", 1)])).1 = 75 ∧
    specFinalScore
      ((sKO.calculate_mss sHR (some [("batting_avg", 1), ("junk", 1)])).2.components)
      [("batting_avg", 1), ("junk", 1)] = 100 ∧
    (75 : ℚ) ≠ 100 := by
  refine ⟨by with_unfolding_all decide, by with_unfolding_all decide, by norm_num⟩

/-- C2 (amended): on an available comparison the final score equals
`50 + 50 · weighted_sum / total_weight` where `total_weight` sums every
entry of the weight configuration (also entries naming no component), and
with a uniform configuration over the role component keys, components all at
`+1` give exactly 100, all at `-1` give exactly 0 and all at `0` give
exactly 50. -/
theorem mss_formula_amended (s o : PlayerStats) (W : List (String × ℚ))
    (hty : s.player_type = o.player_type) (hs : s.data_available = true)
    (ho : o.data_available = true) (_hW : totalWeight W ≠ 0) :
    (s.calculate_mss o (some W)).1
        = 50 + weightedSum ((s.calculate_mss o (some W)).2.components) W
            / totalWeight W * 50
    ∧ (W = uniformWeights s.player_type →
        ((((s.calculate_mss o (some W)).2.components).map Prod.snd = List.replicate 8 1 →
          (s.calculate_mss o (some W)).1 = 100)
      ∧ (((s.calculate_mss o (some W)).2.components).map Prod.snd = List.replicate 8 (-1) →
          (s.calculate_mss o (some W)).1 = 0)
      ∧ (((s.calculate_mss o (some W)).2.components).map Prod.snd = List.replicate 8 0 →
          (s.calculate_mss o (some W)).1 = 50))) := by
  rw [calculate_mss_some_avail hs ho hty]
  dsimp only
  refine ⟨rfl, ?_⟩
  intro hWu
  have hlk : ∀ p ∈ mssComponentsOf s o, lookupStr W p.1 = some (1 / 8) := by
    intro p hp
    unfold mssComponentsOf at hp
    by_cases hb : s.player_type = "batter"
    · rw [if_pos hb] at hp
      obtain ⟨j, _, rfl⟩ := List.mem_map.1 hp
      rw [hWu, hb]
      exact uniformWeights_lookup_batter j
    · rw [if_neg hb] at hp
      obtain ⟨j, _, rfl⟩ := List.mem_map.1 hp
      rw [hWu, uniformWeights_ne_batter _ hb]
      exact uniformWeights_lookup_pitcher j
  have htw : totalWeight W = 1 := by
    by_cases hb : s.player_type = "batter"
    · rw [hWu, hb]
      exact uniformWeights_total_batter
    · rw [hWu, uniformWeights_ne_batter _ hb]
      exact uniformWeights_total_pitcher
  have hws := weightedSum_factor hlk
  refine ⟨?_, ?_, ?_⟩ <;> intro hrep <;> rw [hws, hrep, htw] <;>
    simp [List.sum_replicate] <;> norm_num

/-- Witness for the amended C2 at the strikeout/home-run pair with uniform
batter weights: every component is `+1` there and the score is exactly
100. -/
theorem mss_formula_amended_witness :
    (sKO.calculate_mss sHR (some (uniformWeights "batter"))).1
        = 50 + weightedSum
            ((sKO.calculate_mss sHR (some (uniformWeights "batter"))).2.components)
            (uniformWeights "batter") / totalWeight (uniformWeights "batter") * 50
    ∧ (sKO.calculate_mss sHR (some (uniformWeights "batter"))).1 = 100 := by
  have h := mss_formula_amended sKO sHR (uniformWeights "batter")
    (by with_unfolding_all decide) (by with_unfolding_all decide)
    (by with_unfolding_all decide) (by with_unfolding_all decide)
  exact ⟨h.1, (h.2 (by with_unfolding_all decide)).1 (by with_unfolding_all decide)⟩

/-- C4 counterexample: on a one-row frame without the outcome-event column,
plate appearances fall back to the record count (`1`), not `0`; and the
pitch-type view raises (`KeyError`) when the launch columns are present, a
pitch-type label exists and the description column is absent. -/
theorem missing_column_counterexample :
    (batterSummaryStats dfNoCols).total_pas = 1 ∧ ¬(1 : ℚ) = 0 ∧
    batterPitchTypeStatsE dfPTNoDesc = .error "KeyError: description" := by
  refine ⟨by with_unfolding_all decide, by norm_num, by with_unfolding_all rfl⟩

/-- C4 (amended): metrics whose required column is absent degrade — counting
and rate metrics to `0`, the profile and pitch-type views to an
available-false marker — except that plate appearances and at-bats fall back
to the total record count (the code comment calls this the fallback when the
events column is missing). -/
theorem missing_columns_degrade (df : StatsDF) (_hne : ¬df.rows = []) :
    (df.cols.events = false →
      (batterSummaryStats df).total_pas = (df.rows.length : ℚ) ∧
      (batterSummaryStats df).total_abs = (df.rows.length : ℚ) ∧
      (batterSummaryStats df).hits = 0 ∧ (batterSummaryStats df).walks = 0 ∧
      (batterSummaryStats df).strikeouts = 0 ∧
      (batterSummaryStats df).batting_avg = 0 ∧
      (batterSummaryStats df).on_base_pct = 0 ∧
      (batterSummaryStats df).slug_pct = 0 ∧ (batterSummaryStats df).ops = 0) ∧
    (df.cols.woba_denom = false → (batterSummaryStats df).woba = 0) ∧
    (df.cols.launch_speed = false →
      (batterSummaryStats df).avg_launch_speed = 0 ∧
      (batterSummaryStats df).max_exit_velo = 0) ∧
    (df.cols.launch_angle = false → (batterSummaryStats df).avg_launch_angle = 0) ∧
    (df.cols.hit_distance_sc = false → (batterSummaryStats df).max_distance = 0) ∧
    (df.cols.bb_type = false →
      batterBattedBallProfile df = .unavail ∧ pitcherBattedBallProfile df = .unavail) ∧
    (df.cols.pitch_type = false →
      batterPitchTypeStatsE df = .ok .unavail ∧ pitcherPitchTypeStatsE df = .ok .unavail) ∧
    (df.cols.events = false →
      (pitcherSummaryStats df).hits = 0 ∧ (pitcherSummaryStats df).walks = 0 ∧
      (pitcherSummaryStats df).strikeouts = 0 ∧ (pitcherSummaryStats df).home_runs = 0 ∧
      (pitcherSummaryStats df).k_per_9 = 0 ∧ (pitcherSummaryStats df).whip = 0 ∧
      (df.cols.runs_scored_on_play = false →
        (pitcherSummaryStats df).runs_allowed = 0 ∧ (pitcherSummaryStats df).era = 0)) := by
  refine ⟨?_, ?_, ?_, ?_, ?_, ?_, ?_, ?_⟩
  · intro h
    unfold batterSummaryStats
    simp only [h, Bool.false_eq_true, if_false]
    refine ⟨by norm_num, by norm_num, by norm_num, by norm_num, by norm_num, ?_, ?_, ?_, ?_⟩ <;>
      · dsimp only
        split <;> norm_num
  · intro h
    unfold batterSummaryStats
    simp only [h, Bool.false_eq_true, if_false]
    norm_num
  · intro h
    unfold batterSummaryStats
    simp [h]
  · intro h
    unfold batterSummaryStats
    simp [h]
  · intro h
    unfold batterSummaryStats
    simp [h]
  · intro h
    constructor <;> simp [batterBattedBallProfile, pitcherBattedBallProfile, battedBallRows, h]
  · intro h
    constructor <;> simp [batterPitchTypeStatsE, pitcherPitchTypeStatsE, h]
  · intro h
    unfold pitcherSummaryStats
    simp only [h, Bool.false_eq_true, if_false]
    refine ⟨by norm_num, by norm_num, by norm_num, by norm_num, ?_, ?_, ?_⟩
    · dsimp only
      split <;> norm_num
    · dsimp only
      split <;> norm_num
    · intro h2
      simp only [h2, Bool.false_eq_true, if_false]
      constructor
      · norm_num
      · dsimp only
        split <;> norm_num

/-- Witness for the amended C4 at the one-row, no-column frame. -/
theorem missing_columns_degrade_witness :
    (batterSummaryStats dfNoCols).total_pas = (dfNoCols.rows.length : ℚ) ∧
    (batterSummaryStats dfNoCols).batting_avg = 0 ∧
    batterBattedBallProfile dfNoCols = .unavail ∧
    batterPitchTypeStatsE dfNoCols = .ok .unavail ∧
    (pitcherSummaryStats dfNoCols).era = 0 := by
  have h := missing_columns_degrade dfNoCols (by decide)
  exact ⟨(h.1 rfl).1, (h.1 rfl).2.2.2.2.2.1, (h.2.2.2.2.2.1 rfl).1,
    (h.2.2.2.2.2.2.1 rfl).1, ((h.2.2.2.2.2.2.2 rfl).2.2.2.2.2.2 rfl).2⟩

theorem weightedSum_finmap {keys : Fin 8 → String} {v : Fin 8 → ℚ}
    {w : List (String × ℚ)} {wv : Fin 8 → ℚ}
    (hl : ∀ j, lookupStr w (keys j) = some (wv j)) :
    weightedSum ((List.finRange 8).map (fun j => (keys j, v j))) w =
      ∑ j : Fin 8, v j * wv j := by
  unfold weightedSum
  rw [List.map_map, Fin.sum_univ_def]
  refine congrArg List.sum (List.map_congr_left ?_)
  intro j _
  simp only [Function.comp]
  rw [hl j]

theorem defaultBatterWeights_lookup :
    ∀ j : Fin 8, lookupStr defaultBatterWeights (batterKey j) = some (defaultWeightVal j) := by
  with_unfolding_all decide

theorem defaultPitcherWeights_lookup :
    ∀ j : Fin 8, lookupStr defaultPitcherWeights (pitcherKey j) = some (defaultWeightVal j) := by
  with_unfolding_all decide

theorem defaultWeightVal_nonneg : ∀ j : Fin 8, 0 ≤ defaultWeightVal j := by
  with_unfolding_all decide

theorem batterScale_pos : ∀ j : Fin 8, 0 < batterScale j := by
  with_unfolding_all decide

theorem pitcherScale_pos : ∀ j : Fin 8, 0 < pitcherScale j := by
  with_unfolding_all decide

theorem totalWeight_defaultBatter : totalWeight defaultBatterWeights = 1 := by
  with_unfolding_all decide

theorem totalWeight_defaultPitcher : totalWeight defaultPitcherWeights = 1 := by
  with_unfolding_all decide

/-- C9: with the default weight tables, improving one tracked metric in its
favorable direction (its pre-clamp delta, sign adjustments included) while
every other delta stays fixed never decreases the score. -/
theorem mss_monotone (s t t2 : PlayerStats) (j : Fin 8)
    (hty : s.player_type = t.player_type) (hty2 : s.player_type = t2.player_type)
    (hs : s.data_available = true) (ht : t.data_available = true)
    (ht2 : t2.data_available = true)
    (hfix : ∀ i : Fin 8, ¬i = j → mssDelta s t2 i = mssDelta s t i)
    (himp : mssDelta s t j ≤ mssDelta s t2 j) :
    (s.calculate_mss t none).1 ≤ (s.calculate_mss t2 none).1 := by
  rw [calculate_mss_none_avail hs ht hty, calculate_mss_none_avail hs ht2 hty2]
  dsimp only
  by_cases hb : s.player_type = "batter"
  · have hd : ∀ (o : PlayerStats) (i : Fin 8), mssDelta s o i = batterDelta s o i :=
      fun o i => by rw [mssDelta, if_pos hb]
    have hcomp : ∀ o : PlayerStats, mssComponentsOf s o = batterComponents s o :=
      fun o => by rw [mssComponentsOf, if_pos hb]
    have hwdef : mssDefaultWeights s = defaultBatterWeights := by
      rw [mssDefaultWeights, if_pos hb]
    rw [hcomp, hcomp, hwdef, totalWeight_defaultBatter]
    unfold batterComponents
    rw [weightedSum_finmap defaultBatterWeights_lookup,
      weightedSum_finmap defaultBatterWeights_lookup]
    have hsum : (∑ i : Fin 8, clampUnit (batterDelta s t i / batterScale i) * defaultWeightVal i)
        ≤ ∑ i : Fin 8, clampUnit (batterDelta s t2 i / batterScale i) * defaultWeightVal i := by
      refine Finset.sum_le_sum ?_
      intro i _
      by_cases hij : i = j
      · subst hij
        refine mul_le_mul_of_nonneg_right (clampUnit_mono ?_) (defaultWeightVal_nonneg i)
        refine (div_le_div_iff_of_pos_right (batterScale_pos i)).2 ?_
        rw [← hd t i, ← hd t2 i]
        exact himp
      · have heq := hfix i hij
        rw [hd t2 i, hd t i] at heq
        rw [heq]
    rw [div_one, div_one]
    linarith
  · have hd : ∀ (o : PlayerStats) (i : Fin 8), mssDelta s o i = pitcherDelta s o i :=
      fun o i => by rw [mssDelta, if_neg hb]
    have hcomp : ∀ o : PlayerStats, mssComponentsOf s o = pitcherComponents s o :=
      fun o => by rw [mssComponentsOf, if_neg hb]
    have hwdef : mssDefaultWeights s = defaultPitcherWeights := by
      rw [mssDefaultWeights, if_neg hb]
    rw [hcomp, hcomp, hwdef, totalWeight_defaultPitcher]
    unfold pitcherComponents
    rw [weightedSum_finmap defaultPitcherWeights_lookup,
      weightedSum_finmap defaultPitcherWeights_lookup]
    have hsum : (∑ i : Fin 8, clampUnit (pitcherDelta s t i / pitcherScale i) * defaultWeightVal i)
        ≤ ∑ i : Fin 8, clampUnit (pitcherDelta s t2 i / pitcherScale i) * defaultWeightVal i := by
      refine Finset.sum_le_sum ?_
      intro i _
      by_cases hij : i = j
      · subst hij
        refine mul_le_mul_of_nonneg_right (clampUnit_mono ?_) (defaultWeightVal_nonneg i)
        refine (div_le_div_iff_of_pos_right (pitcherScale_pos i)).2 ?_
        rw [← hd t i, ← hd t2 i]
        exact himp
      · have heq := hfix i hij
        rw [hd t2 i, hd t i] at heq
        rw [heq]
    rw [div_one, div_one]
    linarith

/-- Witness for C9: raising only the average launch speed (component index 6)
from 90 to 91 mph, all other deltas fixed, does not decrease the score. -/
theorem mss_monotone_witness :
    (sSingle.calculate_mss sSingle90 none).1 ≤ (sSingle.calculate_mss sSingle91 none).1 :=
  mss_monotone sSingle sSingle90 sSingle91 6 (by with_unfolding_all decide)
    (by with_unfolding_all decide) (by with_unfolding_all decide)
    (by with_unfolding_all decide) (by with_unfolding_all decide)
    (by with_unfolding_all decide) (by with_unfolding_all decide)

end MSS
